import Mathlib

/-!
Shallow embedding of `src/main.rs` of the `learn-wgpu` demo: a winit window
whose event loop owns a `State` aggregate (surface, device, queue, swap chain,
swap-chain descriptor, window size, clear color, render pipeline).

Conventions of the embedding:
* `f64` values (cursor coordinates, color channels) are modelled as `ℚ` with
  exact division; `u32` values as `Nat`.
* Opaque GPU handles (`Surface`, `Device`, `Queue`, ...) are inert records;
  `create_swap_chain` and `create_render_pipeline` return records that retain
  the descriptor they were created from.
* Calls into the outside world that can fail (`request_adapter`,
  `request_device`, `shaderc::Compiler::new`, `compile_into_spirv`,
  `get_current_frame`) are the fields of an environment record, each an
  `Option`; `.unwrap()` on a failed call is modelled by the enclosing function
  returning `none` (process abort).
* `State::render` additionally returns the list of GPU commands it records
  and submits, so that per-frame effects can be stated.
-/

/-- winit `PhysicalSize<u32>`. -/
structure PhysicalSize where
  width : Nat
  height : Nat
  deriving DecidableEq

/-- winit `PhysicalPosition<f64>`, carried by `CursorMoved`. -/
structure PhysicalPosition where
  x : ℚ
  y : ℚ
  deriving DecidableEq

/-- The winit window: an identity plus its current inner size
(`window.inner_size()` is queried live by the handlers). -/
structure Window where
  id : Nat
  inner_size : PhysicalSize
  deriving DecidableEq

/-- `wgpu::Surface`, created from a window by `instance.create_surface`. -/
structure Surface where
  window_id : Nat
  deriving DecidableEq

/-- `instance.create_surface(window)`. -/
def create_surface (window : Window) : Surface :=
  { window_id := window.id }

/-- `wgpu::Adapter` handle. -/
structure Adapter where
  id : Nat
  deriving DecidableEq

/-- `wgpu::Device` handle. -/
structure Device where
  id : Nat
  deriving DecidableEq

/-- `wgpu::Queue` handle. -/
structure Queue where
  id : Nat
  deriving DecidableEq

/-- `shaderc::Compiler` handle. -/
structure Compiler where
  id : Nat
  deriving DecidableEq

/-- A compiled SPIR-V artifact (`shaderc::CompilationArtifact`). -/
structure SpirvArtifact where
  binary : List Nat
  deriving DecidableEq

/-- `wgpu::ShaderModule`. -/
structure ShaderModule where
  words : List Nat
  deriving DecidableEq

/-- `device.create_shader_module(wgpu::util::make_spirv(..))`. -/
def make_spirv (artifact : SpirvArtifact) : ShaderModule :=
  { words := artifact.binary }

/-- `wgpu::TextureFormat` (the constructors the demo could meet). -/
inductive TextureFormat where
  | Bgra8UnormSrgb
  | Rgba8UnormSrgb
  | Depth32Float
  deriving DecidableEq

/-- `wgpu::PresentMode`. -/
inductive PresentMode where
  | Immediate
  | Mailbox
  | Fifo
  deriving DecidableEq

/-- `wgpu::TextureUsage::OUTPUT_ATTACHMENT` bit (0x10). -/
def OUTPUT_ATTACHMENT : Nat := 16

/-- `wgpu::SwapChainDescriptor`. -/
structure SwapChainDescriptor where
  usage : Nat
  format : TextureFormat
  width : Nat
  height : Nat
  present_mode : PresentMode
  deriving DecidableEq

/-- `wgpu::SwapChain`: retains the device, surface and descriptor it was
created from. -/
structure SwapChain where
  device : Device
  surface : Surface
  desc : SwapChainDescriptor
  deriving DecidableEq

/-- `device.create_swap_chain(&surface, &desc)`. -/
def Device.create_swap_chain (device : Device) (surface : Surface)
    (desc : SwapChainDescriptor) : SwapChain :=
  { device := device, surface := surface, desc := desc }

/-- `wgpu::Color`: four `f64` channels, modelled as `ℚ`. -/
structure Color where
  r : ℚ
  g : ℚ
  b : ℚ
  a : ℚ
  deriving DecidableEq

/-- `Default::default()` for `wgpu::Color` (`#[derive(Default)]` on the
wgpu-types struct): every channel 0.0, i.e. transparent black. -/
def defaultColor : Color :=
  { r := 0, g := 0, b := 0, a := 0 }

/-- `wgpu::PipelineLayout`, retaining its descriptor. -/
structure PipelineLayout where
  label : Option String
  bind_group_layouts : List Nat
  push_constant_ranges : List Nat
  deriving DecidableEq

/-- `wgpu::ProgrammableStageDescriptor`. -/
structure ProgrammableStageDescriptor where
  module : ShaderModule
  entry_point : String
  deriving DecidableEq

/-- `wgpu::FrontFace`; `Default::default()` is `Ccw`. -/
inductive FrontFace where
  | Ccw
  | Cw
  deriving DecidableEq

/-- `wgpu::CullMode`; `Default::default()` is `None`. -/
inductive CullMode where
  | None
  | Front
  | Back
  deriving DecidableEq

/-- `wgpu::RasterizationStateDescriptor`. -/
structure RasterizationStateDescriptor where
  front_face : FrontFace
  cull_mode : CullMode
  clamp_depth : Bool
  depth_bias : Int
  depth_bias_slope_scale : ℚ
  depth_bias_clamp : ℚ
  deriving DecidableEq

/-- `wgpu::PrimitiveTopology`. -/
inductive PrimitiveTopology where
  | PointList
  | LineList
  | TriangleList
  | TriangleStrip
  deriving DecidableEq

/-- `wgpu::BlendFactor` (the constructors `REPLACE` needs). -/
inductive BlendFactor where
  | Zero
  | One
  | SrcAlpha
  | OneMinusSrcAlpha
  deriving DecidableEq

/-- `wgpu::BlendOperation`. -/
inductive BlendOperation where
  | Add
  | Subtract
  deriving DecidableEq

/-- `wgpu::BlendDescriptor`. -/
structure BlendDescriptor where
  src_factor : BlendFactor
  dst_factor : BlendFactor
  operation : BlendOperation
  deriving DecidableEq

/-- `wgpu::BlendDescriptor::REPLACE`. -/
def REPLACE : BlendDescriptor :=
  { src_factor := BlendFactor.One, dst_factor := BlendFactor.Zero,
    operation := BlendOperation.Add }

/-- `wgpu::ColorWrite::ALL` bits. -/
def ALL : Nat := 15

/-- `wgpu::ColorStateDescriptor`. -/
structure ColorStateDescriptor where
  format : TextureFormat
  alpha_blend : BlendDescriptor
  color_blend : BlendDescriptor
  write_mask : Nat
  deriving DecidableEq

/-- `wgpu::DepthStencilStateDescriptor` (never instantiated by the demo:
`depth_stencil_state` is `None`). -/
structure DepthStencilStateDescriptor where
  format : TextureFormat
  depth_write_enabled : Bool
  deriving DecidableEq

/-- `wgpu::IndexFormat`. -/
inductive IndexFormat where
  | Uint16
  | Uint32
  deriving DecidableEq

/-- `wgpu::VertexBufferDescriptor` (the demo passes an empty slice of
these). -/
structure VertexBufferDescriptor where
  stride : Nat
  attributes : List Nat
  deriving DecidableEq

/-- `wgpu::VertexStateDescriptor`. -/
structure VertexStateDescriptor where
  index_format : IndexFormat
  vertex_buffers : List VertexBufferDescriptor
  deriving DecidableEq

/-- `wgpu::RenderPipelineDescriptor`. -/
structure RenderPipelineDescriptor where
  label : Option String
  layout : Option PipelineLayout
  vertex_stage : ProgrammableStageDescriptor
  fragment_stage : Option ProgrammableStageDescriptor
  rasterization_state : Option RasterizationStateDescriptor
  primitive_topology : PrimitiveTopology
  color_states : List ColorStateDescriptor
  depth_stencil_state : Option DepthStencilStateDescriptor
  vertex_state : VertexStateDescriptor
  sample_count : Nat
  sample_mask : Nat
  alpha_to_coverage_enabled : Bool
  deriving DecidableEq

/-- `wgpu::RenderPipeline`: retains the descriptor it was created from. -/
structure RenderPipeline where
  descriptor : RenderPipelineDescriptor
  deriving DecidableEq

/-- `device.create_render_pipeline(&desc)`. -/
def Device.create_render_pipeline (_device : Device)
    (desc : RenderPipelineDescriptor) : RenderPipeline :=
  { descriptor := desc }

/-- The string literals of `main.rs`. -/
def pipelineLayoutLabel : String := "a pipeline layout of mine"

/-- Label of the render pipeline. -/
def pipelineLabel : String := "my pipeline"

/-- Label of the per-frame command encoder. -/
def renderEncoderLabel : String := "Render Encoder"

/-- Entry point name of both shader stages. -/
def entryPointMain : String := "main"

/-- The `State` aggregate of `main.rs`. -/
structure State where
  surface : Surface
  device : Device
  queue : Queue
  swap_chain : SwapChain
  swap_chain_desc : SwapChainDescriptor
  size : PhysicalSize
  clear_color : Color
  render_pipeline : RenderPipeline
  deriving DecidableEq

/-- Outcomes of the fallible external calls performed by `State::new`, each
unwrapped there: `none` models the call failing (so the `.unwrap()`
aborts). -/
structure Env where
  request_adapter : Option Adapter
  request_device : Option (Device × Queue)
  compiler_new : Option Compiler
  compile_vs : Option SpirvArtifact
  compile_fs : Option SpirvArtifact
  deriving DecidableEq

/-- `wgpu::SwapChainFrame.output` view. -/
structure SwapChainFrame where
  view : Nat
  deriving DecidableEq

/-- Outcome of the fallible call performed by `State::render`. -/
structure RenderEnv where
  get_current_frame : Option SwapChainFrame
  deriving DecidableEq

/-- `State::new(window)`: the whole initialization sequence. A `none` result
models the process aborting in one of the `.unwrap()` calls. -/
def State.new (window : Window) (env : Env) : Option State :=
  let size := window.inner_size
  let surface := create_surface window
  match env.request_adapter with
  | none => none
  | some _adapter =>
    match env.request_device with
    | none => none
    | some dq =>
      let device := dq.1
      let queue := dq.2
      let swap_chain_desc : SwapChainDescriptor :=
        { usage := OUTPUT_ATTACHMENT
          format := TextureFormat.Bgra8UnormSrgb
          width := size.width
          height := size.height
          present_mode := PresentMode.Fifo }
      let swap_chain := device.create_swap_chain surface swap_chain_desc
      match env.compiler_new with
      | none => none
      | some _compiler =>
        match env.compile_vs with
        | none => none
        | some vs_spirv =>
          match env.compile_fs with
          | none => none
          | some fs_spirv =>
            let vs_module := make_spirv vs_spirv
            let fs_module := make_spirv fs_spirv
            let layout : PipelineLayout :=
              { label := some pipelineLayoutLabel
                bind_group_layouts := []
                push_constant_ranges := [] }
            let render_pipeline := device.create_render_pipeline
              { label := some pipelineLabel
                layout := some layout
                vertex_stage :=
                  { module := vs_module, entry_point := entryPointMain }
                fragment_stage :=
                  some { module := fs_module, entry_point := entryPointMain }
                rasterization_state := some
                  { front_face := FrontFace.Ccw
                    cull_mode := CullMode.None
                    clamp_depth := false
                    depth_bias := 0
                    depth_bias_slope_scale := 0
                    depth_bias_clamp := 0 }
                primitive_topology := PrimitiveTopology.TriangleList
                color_states :=
                  [{ format := swap_chain_desc.format
                     alpha_blend := REPLACE
                     color_blend := REPLACE
                     write_mask := ALL }]
                depth_stencil_state := none
                vertex_state :=
                  { index_format := IndexFormat.Uint16, vertex_buffers := [] }
                sample_count := 1
                sample_mask := 4294967295
                alpha_to_coverage_enabled := false }
            some
              { surface := surface
                device := device
                queue := queue
                swap_chain := swap_chain
                swap_chain_desc := swap_chain_desc
                size := size
                clear_color := defaultColor
                render_pipeline := render_pipeline }

/-- `State::resize(new_size)`: stores the new size, writes it into the
swap-chain descriptor (height then width, as in the source), then recreates
the swap chain from the updated descriptor. -/
def State.resize (s : State) (new_size : PhysicalSize) : State :=
  let desc1 := { s.swap_chain_desc with height := new_size.height }
  let desc2 := { desc1 with width := new_size.width }
  { s with
    size := new_size
    swap_chain_desc := desc2
    swap_chain := s.device.create_swap_chain s.surface desc2 }

/-- `wgpu::LoadOp`. -/
inductive LoadOp where
  | Clear (color : Color)
  | Load
  deriving DecidableEq

/-- `wgpu::Operations` of a color attachment. -/
structure Operations where
  load : LoadOp
  store : Bool
  deriving DecidableEq

/-- The GPU-facing steps `State::render` performs, in order. -/
inductive RenderCmd where
  | acquireFrame (view : Nat)
  | createCommandEncoder (label : Option String)
  | beginRenderPass (ops : Operations)
  | setPipeline (pipeline : RenderPipeline)
  | draw (vertices : Nat × Nat) (instances : Nat × Nat)
  | submit (command_buffers : Nat)
  deriving DecidableEq

/-- Does a command record a draw call? -/
def RenderCmd.is_draw : RenderCmd → Bool
  | RenderCmd.draw _ _ => true
  | _ => false

/-- Does a command submit to the queue? -/
def RenderCmd.is_submit : RenderCmd → Bool
  | RenderCmd.submit _ => true
  | _ => false

/-- `State::render()`: acquires the frame (unwrapped), records one render
pass clearing to the current color, binds the pipeline, draws `0..3` /
`0..1`, and submits one command buffer. Returns the (unchanged) state and
the recorded command trace; `none` models the abort when frame acquisition
fails. -/
def State.render (s : State) (renv : RenderEnv) :
    Option (State × List RenderCmd) :=
  match renv.get_current_frame with
  | none => none
  | some frame =>
    some (s,
      [RenderCmd.acquireFrame frame.view,
       RenderCmd.createCommandEncoder (some renderEncoderLabel),
       RenderCmd.beginRenderPass
         { load := LoadOp.Clear s.clear_color, store := true },
       RenderCmd.setPipeline s.render_pipeline,
       RenderCmd.draw (0, 3) (0, 1),
       RenderCmd.submit 1])

/-- winit `ElementState`. -/
inductive ElementState where
  | Pressed
  | Released
  deriving DecidableEq

/-- winit `VirtualKeyCode` (a representative subset containing `Escape`). -/
inductive VirtualKeyCode where
  | Escape
  | Space
  | Return
  | A
  | Left
  deriving DecidableEq

/-- winit `KeyboardInput`. -/
structure KeyboardInputData where
  scancode : Nat
  state : ElementState
  virtual_keycode : Option VirtualKeyCode
  deriving DecidableEq

/-- winit `WindowEvent` (the constructors the handler matches, plus
representatives of the `_ => {}` arm). -/
inductive WindowEvent where
  | CloseRequested
  | KeyboardInput (device_id : Nat) (input : KeyboardInputData)
      (is_synthetic : Bool)
  | CursorMoved (position : PhysicalPosition)
  | Resized (physical_size : PhysicalSize)
  | Focused (focus : Bool)
  deriving DecidableEq

/-- winit `Event` (the constructors the loop matches, plus representatives
of the `_ => {}` arm). -/
inductive Event where
  | WindowEvent (window_id : Nat) (event : WindowEvent)
  | RedrawRequested (window_id : Nat)
  | MainEventsCleared
  | NewEvents
  | LoopDestroyed
  deriving DecidableEq

/-- winit `ControlFlow`. -/
inductive ControlFlow where
  | Poll
  | Wait
  | Exit
  deriving DecidableEq

/-- One dispatch of the event-loop closure of `main`: takes the live window
(for `window.inner_size()`), the outcome of this frame's external call, the
owned state, the current control flow and the event; returns the new state,
control flow and the GPU commands recorded, or `none` when an `.unwrap()`
aborts (absent keyboard keycode, failed frame acquisition). -/
def handle_event (window : Window) (renv : RenderEnv) (state : State)
    (control_flow : ControlFlow) (event : Event) :
    Option (State × ControlFlow × List RenderCmd) :=
  match event with
  | Event.WindowEvent _window_id ev =>
    match ev with
    | WindowEvent.CloseRequested =>
      some (state, ControlFlow.Exit, [])
    | WindowEvent.KeyboardInput _device_id input _is_synthetic =>
      match input.virtual_keycode with
      | none => none
      | some VirtualKeyCode.Escape => some (state, ControlFlow.Exit, [])
      | some _ => some (state, control_flow, [])
    | WindowEvent.CursorMoved position =>
      some
        ({ state with clear_color :=
            { r := position.x / (window.inner_size.width : ℚ)
              g := position.y / (window.inner_size.height : ℚ)
              b := position.x / (window.inner_size.height : ℚ)
              a := 1 } },
         control_flow, [])
    | WindowEvent.Resized physical_size =>
      some (state.resize physical_size, control_flow, [])
    | WindowEvent.Focused _ => some (state, control_flow, [])
  | Event.RedrawRequested _ =>
    match state.render renv with
    | none => none
    | some out => some (out.1, control_flow, out.2)
  | Event.MainEventsCleared => some (state, control_flow, [])
  | Event.NewEvents => some (state, control_flow, [])
  | Event.LoopDestroyed => some (state, control_flow, [])

/-- One iteration's worth of loop input: the window snapshot, the external
outcome for a possible render, and the event. -/
structure LoopInput where
  window : Window
  renv : RenderEnv
  event : Event
  deriving DecidableEq

/-- Runs the event-loop closure over a list of inputs, threading state and
control flow; `none` as soon as any dispatch aborts. -/
def run_events (state : State) (control_flow : ControlFlow) :
    List LoopInput → Option (State × ControlFlow)
  | [] => some (state, control_flow)
  | inp :: rest =>
    match handle_event inp.window inp.renv state control_flow inp.event with
    | none => none
    | some (s, cf, _) => run_events s cf rest

/-- Is the event a cursor move? -/
def Event.is_cursor_moved : Event → Bool
  | Event.WindowEvent _ (WindowEvent.CursorMoved _) => true
  | _ => false

/-- Events on which the handler assigns `ControlFlow::Exit`: a close
request, or a keyboard event whose keycode is `Escape`. -/
def exit_event : Event → Bool
  | Event.WindowEvent _ WindowEvent.CloseRequested => true
  | Event.WindowEvent _ (WindowEvent.KeyboardInput _ input _) =>
    match input.virtual_keycode with
    | some VirtualKeyCode.Escape => true
    | _ => false
  | _ => false

/-- The swap-configuration invariant of the spec: the descriptor's
dimensions equal the stored current window size. -/
def size_invariant (s : State) : Prop :=
  s.swap_chain_desc.width = s.size.width ∧
  s.swap_chain_desc.height = s.size.height

/-! Sample concrete values used by the witness theorems. -/

/-- A sample window of inner size 800 x 600. -/
def sampleWindow : Window :=
  { id := 1, inner_size := { width := 800, height := 600 } }

/-- A sample environment where every external call succeeds. -/
def sampleEnv : Env :=
  { request_adapter := some { id := 0 }
    request_device := some ({ id := 0 }, { id := 0 })
    compiler_new := some { id := 0 }
    compile_vs := some { binary := [1] }
    compile_fs := some { binary := [2] } }

/-- A sample render environment where frame acquisition succeeds. -/
def sampleRenderEnv : RenderEnv :=
  { get_current_frame := some { view := 7 } }

/-- The swap-chain descriptor `State::new` builds for `sampleWindow`. -/
def sampleDesc : SwapChainDescriptor :=
  { usage := OUTPUT_ATTACHMENT
    format := TextureFormat.Bgra8UnormSrgb
    width := 800
    height := 600
    present_mode := PresentMode.Fifo }

/-- The render pipeline `State::new` builds under `sampleEnv`. -/
def samplePipeline : RenderPipeline :=
  { descriptor :=
    { label := some pipelineLabel
      layout := some
        { label := some pipelineLayoutLabel
          bind_group_layouts := []
          push_constant_ranges := [] }
      vertex_stage :=
        { module := { words := [1] }, entry_point := entryPointMain }
      fragment_stage :=
        some { module := { words := [2] }, entry_point := entryPointMain }
      rasterization_state := some
        { front_face := FrontFace.Ccw
          cull_mode := CullMode.None
          clamp_depth := false
          depth_bias := 0
          depth_bias_slope_scale := 0
          depth_bias_clamp := 0 }
      primitive_topology := PrimitiveTopology.TriangleList
      color_states :=
        [{ format := TextureFormat.Bgra8UnormSrgb
           alpha_blend := REPLACE
           color_blend := REPLACE
           write_mask := ALL }]
      depth_stencil_state := none
      vertex_state :=
        { index_format := IndexFormat.Uint16, vertex_buffers := [] }
      sample_count := 1
      sample_mask := 4294967295
      alpha_to_coverage_enabled := false } }

/-- The state `State::new sampleWindow sampleEnv` produces. -/
def sampleState : State :=
  { surface := { window_id := 1 }
    device := { id := 0 }
    queue := { id := 0 }
    swap_chain :=
      { device := { id := 0 }, surface := { window_id := 1 },
        desc := sampleDesc }
    swap_chain_desc := sampleDesc
    size := { width := 800, height := 600 }
    clear_color := defaultColor
    render_pipeline := samplePipeline }

/-- `sampleState` after a cursor move to (400, 300). -/
def movedSampleState : State :=
  { sampleState with
    clear_color := { r := 1/2, g := 1/2, b := 2/3, a := 1 } }
def cursorMovedSampleState : State :=
  { sampleState with
    clear_color :=
      { r := (400 : ℚ) / ((800 : Nat) : ℚ)
        g := (300 : ℚ) / ((600 : Nat) : ℚ)
        b := (400 : ℚ) / ((600 : Nat) : ℚ)
        a := 1 } }

/-- C1: a cursor-move event to position (x, y), dispatched while the window's
inner size is (w, h), updates all four channels of the clear color: red
becomes x/w, green y/h, blue x/h, and alpha 1.0. -/
theorem cursor_move_updates_clear_color
    (window : Window) (renv : RenderEnv) (state : State) (cf : ControlFlow)
    (wid : Nat) (position : PhysicalPosition)
    (st' : State) (cf' : ControlFlow) (tr : List RenderCmd)
    (h : handle_event window renv state cf
        (Event.WindowEvent wid (WindowEvent.CursorMoved position)) =
        some (st', cf', tr)) :
    st'.clear_color.r = position.x / (window.inner_size.width : ℚ) ∧
    st'.clear_color.g = position.y / (window.inner_size.height : ℚ) ∧
    st'.clear_color.b = position.x / (window.inner_size.height : ℚ) ∧
    st'.clear_color.a = 1 := by
  simp only [handle_event, Option.some.injEq, Prod.mk.injEq] at h
  obtain ⟨h1, -, -⟩ := h
  subst h1
  exact ⟨rfl, rfl, rfl, rfl⟩

/-- Witness for C1 at window 800 x 600 and cursor position (400, 300). -/
theorem cursor_move_updates_clear_color_witness :
    handle_event sampleWindow sampleRenderEnv sampleState ControlFlow.Poll
        (Event.WindowEvent 1 (WindowEvent.CursorMoved { x := 400, y := 300 })) =
      some (cursorMovedSampleState, ControlFlow.Poll, []) ∧
    (cursorMovedSampleState.clear_color.r =
        (400 : ℚ) / (sampleWindow.inner_size.width : ℚ) ∧
     cursorMovedSampleState.clear_color.g =
        (300 : ℚ) / (sampleWindow.inner_size.height : ℚ) ∧
     cursorMovedSampleState.clear_color.b =
        (400 : ℚ) / (sampleWindow.inner_size.height : ℚ) ∧
     cursorMovedSampleState.clear_color.a = 1) :=
  ⟨rfl, cursor_move_updates_clear_color sampleWindow sampleRenderEnv
    sampleState ControlFlow.Poll 1 { x := 400, y := 300 }
    cursorMovedSampleState ControlFlow.Poll [] rfl⟩

/-- C5: every fallible operation is unwrapped: `State::new` aborts exactly
when the adapter request, compiler construction, device request, or either
shader compilation fails, and `State::render` aborts exactly when frame
acquisition fails; neither returns an error value to its caller. -/
theorem every_failure_aborts
    (window : Window) (env : Env) (s : State) (renv : RenderEnv) :
    ((State.new window env).isNone ↔
      (env.request_adapter.isNone ∨ env.request_device.isNone ∨
       env.compiler_new.isNone ∨ env.compile_vs.isNone ∨
       env.compile_fs.isNone)) ∧
    ((s.render renv).isNone ↔ renv.get_current_frame.isNone) := by
  constructor
  · obtain ⟨a, d, c, v, f⟩ := env
    cases a <;> cases d <;> cases c <;> cases v <;> cases f <;>
      simp [State.new]
  · obtain ⟨fr⟩ := renv
    cases fr <;> simp [State.render]

/-- C6: the handler assigns `ControlFlow::Exit` exactly on a close request
or a keyboard event carrying the `Escape` keycode; on every other event the
control flow is left as it was. -/
theorem exit_iff_close_or_escape
    (window : Window) (renv : RenderEnv) (state : State) (cf : ControlFlow)
    (event : Event) (st' : State) (cf' : ControlFlow) (tr : List RenderCmd)
    (h : handle_event window renv state cf event = some (st', cf', tr)) :
    cf' = if exit_event event then ControlFlow.Exit else cf := by
  cases event with
  | WindowEvent wid ev =>
    cases ev with
    | CloseRequested =>
      simp only [handle_event, Option.some.injEq, Prod.mk.injEq] at h
      simp [exit_event, h.2.1.symm]
    | KeyboardInput did input syn =>
      cases hk : input.virtual_keycode with
      | none => simp [handle_event, hk] at h
      | some k =>
        cases k <;>
          simp only [handle_event, hk, Option.some.injEq, Prod.mk.injEq]
            at h <;>
          simp [exit_event, hk, h.2.1.symm]
    | CursorMoved position =>
      simp only [handle_event, Option.some.injEq, Prod.mk.injEq] at h
      simp [exit_event, h.2.1.symm]
    | Resized sz =>
      simp only [handle_event, Option.some.injEq, Prod.mk.injEq] at h
      simp [exit_event, h.2.1.symm]
    | Focused b =>
      simp only [handle_event, Option.some.injEq, Prod.mk.injEq] at h
      simp [exit_event, h.2.1.symm]
  | RedrawRequested wid =>
    cases hr : state.render renv with
    | none => simp [handle_event, hr] at h
    | some out =>
      simp only [handle_event, hr, Option.some.injEq, Prod.mk.injEq] at h
      simp [exit_event, h.2.1.symm]
  | MainEventsCleared =>
    simp only [handle_event, Option.some.injEq, Prod.mk.injEq] at h
    simp [exit_event, h.2.1.symm]
  | NewEvents =>
    simp only [handle_event, Option.some.injEq, Prod.mk.injEq] at h
    simp [exit_event, h.2.1.symm]
  | LoopDestroyed =>
    simp only [handle_event, Option.some.injEq, Prod.mk.injEq] at h
    simp [exit_event, h.2.1.symm]

/-- Witness for C6 on a close-request event. -/
theorem exit_iff_close_or_escape_witness :
    handle_event sampleWindow sampleRenderEnv sampleState ControlFlow.Poll
        (Event.WindowEvent 1 WindowEvent.CloseRequested) =
      some (sampleState, ControlFlow.Exit, []) ∧
    ControlFlow.Exit =
      if exit_event (Event.WindowEvent 1 WindowEvent.CloseRequested) then
        ControlFlow.Exit
      else ControlFlow.Poll :=
  ⟨rfl, exit_iff_close_or_escape sampleWindow sampleRenderEnv sampleState
    ControlFlow.Poll (Event.WindowEvent 1 WindowEvent.CloseRequested)
    sampleState ControlFlow.Exit [] rfl⟩

/-- C9: a keyboard event aborts the process (the keycode `.unwrap()` panics)
exactly when its optional virtual keycode is absent, even though a keyboard
event is never a close request; when a keycode is present the handler never
aborts on it. -/
theorem keyboard_missing_keycode_aborts
    (window : Window) (renv : RenderEnv) (state : State) (cf : ControlFlow)
    (wid did : Nat) (input : KeyboardInputData) (syn : Bool) :
    (handle_event window renv state cf
        (Event.WindowEvent wid (WindowEvent.KeyboardInput did input syn)) =
        none ↔
      input.virtual_keycode = none) ∧
    WindowEvent.KeyboardInput did input syn ≠ WindowEvent.CloseRequested := by
  constructor
  · cases hk : input.virtual_keycode with
    | none => simp [handle_event, hk]
    | some k => cases k <;> simp [handle_event, hk]
  · intro hcontra
    exact WindowEvent.noConfusion hcontra
/-- C2: the swap-chain descriptor's dimensions equal the stored current
size: the invariant holds for any state `State::new` produces, is preserved
by every event dispatch, and on a resize the new size is written into both
the stored size and the descriptor before the swap chain is recreated from
that updated descriptor. -/
theorem swap_desc_matches_size
    (window : Window) (env : Env) (renv : RenderEnv)
    (s st st' : State) (cf cf' : ControlFlow) (ev : Event)
    (tr : List RenderCmd)
    (hinit : State.new window env = some s)
    (hst : size_invariant st)
    (hstep : handle_event window renv st cf ev = some (st', cf', tr)) :
    size_invariant s ∧ size_invariant st' ∧
    (∀ wid sz, ev = Event.WindowEvent wid (WindowEvent.Resized sz) →
      st'.size = sz ∧ st'.swap_chain_desc.width = sz.width ∧
      st'.swap_chain_desc.height = sz.height ∧
      st'.swap_chain.desc = st'.swap_chain_desc) := by
  refine ⟨?_, ?_⟩
  · obtain ⟨a, d, c, v, f⟩ := env
    cases a <;> cases d <;> cases c <;> cases v <;> cases f <;>
      simp [State.new] at hinit
    subst hinit
    exact ⟨rfl, rfl⟩
  · cases ev with
    | WindowEvent wid ev =>
      cases ev with
      | CloseRequested =>
        simp only [handle_event, Option.some.injEq, Prod.mk.injEq] at hstep
        obtain ⟨h1, -, -⟩ := hstep
        subst h1
        exact ⟨hst, by simp⟩
      | KeyboardInput did input syn =>
        cases hk : input.virtual_keycode with
        | none => simp [handle_event, hk] at hstep
        | some k =>
          cases k <;>
            (simp only [handle_event, hk, Option.some.injEq,
              Prod.mk.injEq] at hstep;
             obtain ⟨h1, -, -⟩ := hstep; subst h1; exact ⟨hst, by simp⟩)
      | CursorMoved position =>
        simp only [handle_event, Option.some.injEq, Prod.mk.injEq] at hstep
        obtain ⟨h1, -, -⟩ := hstep
        subst h1
        exact ⟨hst, by simp⟩
      | Resized sz =>
        simp only [handle_event, Option.some.injEq, Prod.mk.injEq] at hstep
        obtain ⟨h1, -, -⟩ := hstep
        subst h1
        refine ⟨⟨rfl, rfl⟩, ?_⟩
        intro wid2 sz2 heq
        injection heq with h2 h3
        injection h3 with h4
        subst h4
        exact ⟨rfl, rfl, rfl, rfl⟩
      | Focused b =>
        simp only [handle_event, Option.some.injEq, Prod.mk.injEq] at hstep
        obtain ⟨h1, -, -⟩ := hstep
        subst h1
        exact ⟨hst, by simp⟩
    | RedrawRequested wid =>
      cases hr : st.render renv with
      | none => simp [handle_event, hr] at hstep
      | some out =>
        simp only [handle_event, hr, Option.some.injEq,
          Prod.mk.injEq] at hstep
        obtain ⟨h1, -, -⟩ := hstep
        obtain ⟨fr⟩ := renv
        cases fr with
        | none => simp [State.render] at hr
        | some frame =>
          simp only [State.render, Option.some.injEq] at hr
          subst hr
          subst h1
          exact ⟨hst, by simp⟩
    | MainEventsCleared =>
      simp only [handle_event, Option.some.injEq, Prod.mk.injEq] at hstep
      obtain ⟨h1, -, -⟩ := hstep
      subst h1
      exact ⟨hst, by simp⟩
    | NewEvents =>
      simp only [handle_event, Option.some.injEq, Prod.mk.injEq] at hstep
      obtain ⟨h1, -, -⟩ := hstep
      subst h1
      exact ⟨hst, by simp⟩
    | LoopDestroyed =>
      simp only [handle_event, Option.some.injEq, Prod.mk.injEq] at hstep
      obtain ⟨h1, -, -⟩ := hstep
      subst h1
      exact ⟨hst, by simp⟩

/-- The resize event used by several witnesses. -/
def resizeSampleEvent : Event :=
  Event.WindowEvent 1 (WindowEvent.Resized { width := 400, height := 300 })

/-- `sampleState` after `State::resize` to 400 x 300. -/
def resizedSampleState : State :=
  State.resize sampleState { width := 400, height := 300 }

/-- Witness for C2: the invariant after initialization and after a concrete
resize to 400 x 300. -/
theorem swap_desc_matches_size_witness :
    State.new sampleWindow sampleEnv = some sampleState ∧
    size_invariant sampleState ∧
    handle_event sampleWindow sampleRenderEnv sampleState ControlFlow.Poll
        resizeSampleEvent =
      some (resizedSampleState, ControlFlow.Poll, []) ∧
    size_invariant resizedSampleState ∧
    resizedSampleState.size = { width := 400, height := 300 } ∧
    resizedSampleState.swap_chain.desc = resizedSampleState.swap_chain_desc :=
  ⟨rfl, ⟨rfl, rfl⟩, rfl,
   (swap_desc_matches_size sampleWindow sampleEnv sampleRenderEnv
     sampleState sampleState resizedSampleState ControlFlow.Poll
     ControlFlow.Poll resizeSampleEvent [] rfl ⟨rfl, rfl⟩ rfl).2.1,
   ((swap_desc_matches_size sampleWindow sampleEnv sampleRenderEnv
     sampleState sampleState resizedSampleState ControlFlow.Poll
     ControlFlow.Poll resizeSampleEvent [] rfl ⟨rfl, rfl⟩ rfl).2.2
     1 { width := 400, height := 300 } rfl).1,
   ((swap_desc_matches_size sampleWindow sampleEnv sampleRenderEnv
     sampleState sampleState resizedSampleState ControlFlow.Poll
     ControlFlow.Poll resizeSampleEvent [] rfl ⟨rfl, rfl⟩ rfl).2.2
     1 { width := 400, height := 300 } rfl).2.2.2⟩

/-- C3: after initialization the only mutations of the state are the resize
path, which changes only the size, the descriptor dimensions and the
recreated swap chain (itself rebuilt from the unchanged device and surface
and the updated descriptor), and the cursor-move color update, which changes
only the clear color; every other dispatch, the per-frame render included,
returns the state unchanged. -/
theorem only_resize_and_cursor_mutate
    (window : Window) (renv : RenderEnv) (st : State) (cf : ControlFlow)
    (ev : Event) (st' : State) (cf' : ControlFlow) (tr : List RenderCmd)
    (h : handle_event window renv st cf ev = some (st', cf', tr)) :
    (∃ wid sz, ev = Event.WindowEvent wid (WindowEvent.Resized sz) ∧
      st'.surface = st.surface ∧ st'.device = st.device ∧
      st'.queue = st.queue ∧ st'.clear_color = st.clear_color ∧
      st'.render_pipeline = st.render_pipeline ∧
      st'.size = sz ∧ st'.swap_chain_desc.width = sz.width ∧
      st'.swap_chain_desc.height = sz.height ∧
      st'.swap_chain =
        st'.device.create_swap_chain st'.surface st'.swap_chain_desc) ∨
    (∃ wid pos, ev = Event.WindowEvent wid (WindowEvent.CursorMoved pos) ∧
      st' = { st with clear_color := st'.clear_color }) ∨
    st' = st := by
  cases ev with
  | WindowEvent wid ev =>
    cases ev with
    | CloseRequested =>
      simp only [handle_event, Option.some.injEq, Prod.mk.injEq] at h
      obtain ⟨h1, -, -⟩ := h
      subst h1
      exact Or.inr (Or.inr rfl)
    | KeyboardInput did input syn =>
      cases hk : input.virtual_keycode with
      | none => simp [handle_event, hk] at h
      | some k =>
        cases k <;>
          (simp only [handle_event, hk, Option.some.injEq,
            Prod.mk.injEq] at h;
           obtain ⟨h1, -, -⟩ := h; subst h1; exact Or.inr (Or.inr rfl))
    | CursorMoved position =>
      simp only [handle_event, Option.some.injEq, Prod.mk.injEq] at h
      obtain ⟨h1, -, -⟩ := h
      subst h1
      exact Or.inr (Or.inl ⟨wid, position, rfl, rfl⟩)
    | Resized sz =>
      simp only [handle_event, Option.some.injEq, Prod.mk.injEq] at h
      obtain ⟨h1, -, -⟩ := h
      subst h1
      exact Or.inl ⟨wid, sz, rfl, rfl, rfl, rfl, rfl, rfl, rfl, rfl, rfl, rfl⟩
    | Focused b =>
      simp only [handle_event, Option.some.injEq, Prod.mk.injEq] at h
      obtain ⟨h1, -, -⟩ := h
      subst h1
      exact Or.inr (Or.inr rfl)
  | RedrawRequested wid =>
    cases hr : st.render renv with
    | none => simp [handle_event, hr] at h
    | some out =>
      simp only [handle_event, hr, Option.some.injEq, Prod.mk.injEq] at h
      obtain ⟨h1, -, -⟩ := h
      obtain ⟨fr⟩ := renv
      cases fr with
      | none => simp [State.render] at hr
      | some frame =>
        simp only [State.render, Option.some.injEq] at hr
        subst hr
        subst h1
        exact Or.inr (Or.inr rfl)
  | MainEventsCleared =>
    simp only [handle_event, Option.some.injEq, Prod.mk.injEq] at h
    obtain ⟨h1, -, -⟩ := h
    subst h1
    exact Or.inr (Or.inr rfl)
  | NewEvents =>
    simp only [handle_event, Option.some.injEq, Prod.mk.injEq] at h
    obtain ⟨h1, -, -⟩ := h
    subst h1
    exact Or.inr (Or.inr rfl)
  | LoopDestroyed =>
    simp only [handle_event, Option.some.injEq, Prod.mk.injEq] at h
    obtain ⟨h1, -, -⟩ := h
    subst h1
    exact Or.inr (Or.inr rfl)

/-- Witness for C3 at a concrete resize dispatch. -/
theorem only_resize_and_cursor_mutate_witness :
    handle_event sampleWindow sampleRenderEnv sampleState ControlFlow.Poll
        resizeSampleEvent =
      some (resizedSampleState, ControlFlow.Poll, []) ∧
    ((∃ wid sz,
        resizeSampleEvent = Event.WindowEvent wid (WindowEvent.Resized sz) ∧
        resizedSampleState.surface = sampleState.surface ∧
        resizedSampleState.device = sampleState.device ∧
        resizedSampleState.queue = sampleState.queue ∧
        resizedSampleState.clear_color = sampleState.clear_color ∧
        resizedSampleState.render_pipeline = sampleState.render_pipeline ∧
        resizedSampleState.size = sz ∧
        resizedSampleState.swap_chain_desc.width = sz.width ∧
        resizedSampleState.swap_chain_desc.height = sz.height ∧
        resizedSampleState.swap_chain =
          resizedSampleState.device.create_swap_chain
            resizedSampleState.surface resizedSampleState.swap_chain_desc) ∨
     (∃ wid pos,
        resizeSampleEvent = Event.WindowEvent wid (WindowEvent.CursorMoved pos) ∧
        resizedSampleState =
          { sampleState with clear_color := resizedSampleState.clear_color }) ∨
     resizedSampleState = sampleState) :=
  ⟨rfl, only_resize_and_cursor_mutate sampleWindow sampleRenderEnv
    sampleState ControlFlow.Poll resizeSampleEvent resizedSampleState
    ControlFlow.Poll [] rfl⟩

/-- C4: on each frame, `State::render` leaves the state unchanged and
records exactly the sequence: acquire the next frame, create one command
encoder, begin a render pass clearing to the current clear color with store
enabled, bind the one render pipeline, draw vertices 0..3 / instances 0..1,
and submit exactly one command buffer; in particular the trace contains
exactly one draw and exactly one submit. -/
theorem render_per_frame_sequence
    (s : State) (renv : RenderEnv) (st' : State) (tr : List RenderCmd)
    (h : s.render renv = some (st', tr)) :
    st' = s ∧
    (∃ v, tr =
      [RenderCmd.acquireFrame v,
       RenderCmd.createCommandEncoder (some renderEncoderLabel),
       RenderCmd.beginRenderPass
         { load := LoadOp.Clear s.clear_color, store := true },
       RenderCmd.setPipeline s.render_pipeline,
       RenderCmd.draw (0, 3) (0, 1),
       RenderCmd.submit 1]) ∧
    tr.countP RenderCmd.is_draw = 1 ∧
    RenderCmd.draw (0, 3) (0, 1) ∈ tr ∧
    tr.countP RenderCmd.is_submit = 1 ∧
    RenderCmd.submit 1 ∈ tr := by
  obtain ⟨fr⟩ := renv
  cases fr with
  | none => simp [State.render] at h
  | some frame =>
    simp only [State.render, Option.some.injEq, Prod.mk.injEq] at h
    obtain ⟨h1, h2⟩ := h
    subst h1
    subst h2
    refine ⟨rfl, ⟨frame.view, rfl⟩, ?_, ?_, ?_, ?_⟩ <;>
      simp [List.countP_cons, RenderCmd.is_draw, RenderCmd.is_submit]

/-- Witness for C4: the render of `sampleState` under `sampleRenderEnv`. -/
theorem render_per_frame_sequence_witness :
    State.render sampleState sampleRenderEnv =
      some (sampleState,
        [RenderCmd.acquireFrame 7,
         RenderCmd.createCommandEncoder (some renderEncoderLabel),
         RenderCmd.beginRenderPass
           { load := LoadOp.Clear sampleState.clear_color, store := true },
         RenderCmd.setPipeline sampleState.render_pipeline,
         RenderCmd.draw (0, 3) (0, 1),
         RenderCmd.submit 1]) ∧
    (sampleState = sampleState ∧
     (∃ v,
        [RenderCmd.acquireFrame 7,
         RenderCmd.createCommandEncoder (some renderEncoderLabel),
         RenderCmd.beginRenderPass
           { load := LoadOp.Clear sampleState.clear_color, store := true },
         RenderCmd.setPipeline sampleState.render_pipeline,
         RenderCmd.draw (0, 3) (0, 1),
         RenderCmd.submit 1] =
        [RenderCmd.acquireFrame v,
         RenderCmd.createCommandEncoder (some renderEncoderLabel),
         RenderCmd.beginRenderPass
           { load := LoadOp.Clear sampleState.clear_color, store := true },
         RenderCmd.setPipeline sampleState.render_pipeline,
         RenderCmd.draw (0, 3) (0, 1),
         RenderCmd.submit 1]) ∧
     List.countP RenderCmd.is_draw
        [RenderCmd.acquireFrame 7,
         RenderCmd.createCommandEncoder (some renderEncoderLabel),
         RenderCmd.beginRenderPass
           { load := LoadOp.Clear sampleState.clear_color, store := true },
         RenderCmd.setPipeline sampleState.render_pipeline,
         RenderCmd.draw (0, 3) (0, 1),
         RenderCmd.submit 1] = 1 ∧
     RenderCmd.draw (0, 3) (0, 1) ∈
        [RenderCmd.acquireFrame 7,
         RenderCmd.createCommandEncoder (some renderEncoderLabel),
         RenderCmd.beginRenderPass
           { load := LoadOp.Clear sampleState.clear_color, store := true },
         RenderCmd.setPipeline sampleState.render_pipeline,
         RenderCmd.draw (0, 3) (0, 1),
         RenderCmd.submit 1] ∧
     List.countP RenderCmd.is_submit
        [RenderCmd.acquireFrame 7,
         RenderCmd.createCommandEncoder (some renderEncoderLabel),
         RenderCmd.beginRenderPass
           { load := LoadOp.Clear sampleState.clear_color, store := true },
         RenderCmd.setPipeline sampleState.render_pipeline,
         RenderCmd.draw (0, 3) (0, 1),
         RenderCmd.submit 1] = 1 ∧
     RenderCmd.submit 1 ∈
        [RenderCmd.acquireFrame 7,
         RenderCmd.createCommandEncoder (some renderEncoderLabel),
         RenderCmd.beginRenderPass
           { load := LoadOp.Clear sampleState.clear_color, store := true },
         RenderCmd.setPipeline sampleState.render_pipeline,
         RenderCmd.draw (0, 3) (0, 1),
         RenderCmd.submit 1]) :=
  ⟨rfl, render_per_frame_sequence sampleState sampleRenderEnv sampleState
    [RenderCmd.acquireFrame 7,
     RenderCmd.createCommandEncoder (some renderEncoderLabel),
     RenderCmd.beginRenderPass
       { load := LoadOp.Clear sampleState.clear_color, store := true },
     RenderCmd.setPipeline sampleState.render_pipeline,
     RenderCmd.draw (0, 3) (0, 1),
     RenderCmd.submit 1] rfl⟩

/-- C7: any state `State::new` produces carries exactly one render
pipeline, configured with an empty vertex-buffer list, no depth/stencil
state, triangle-list topology, and a single color target whose format
equals the swap-chain descriptor's format. -/
theorem pipeline_configuration
    (window : Window) (env : Env) (s : State)
    (h : State.new window env = some s) :
    s.render_pipeline.descriptor.vertex_state.vertex_buffers = [] ∧
    s.render_pipeline.descriptor.depth_stencil_state = none ∧
    s.render_pipeline.descriptor.primitive_topology =
      PrimitiveTopology.TriangleList ∧
    ∃ cs, s.render_pipeline.descriptor.color_states = [cs] ∧
      cs.format = s.swap_chain_desc.format := by
  obtain ⟨a, d, c, v, f⟩ := env
  cases a <;> cases d <;> cases c <;> cases v <;> cases f <;>
    simp [State.new] at h
  subst h
  exact ⟨rfl, rfl, rfl, ⟨_, rfl, rfl⟩⟩

/-- Witness for C7 under `sampleEnv`. -/
theorem pipeline_configuration_witness :
    State.new sampleWindow sampleEnv = some sampleState ∧
    (sampleState.render_pipeline.descriptor.vertex_state.vertex_buffers = [] ∧
     sampleState.render_pipeline.descriptor.depth_stencil_state = none ∧
     sampleState.render_pipeline.descriptor.primitive_topology =
       PrimitiveTopology.TriangleList ∧
     ∃ cs, sampleState.render_pipeline.descriptor.color_states = [cs] ∧
       cs.format = sampleState.swap_chain_desc.format) :=
  ⟨rfl, pipeline_configuration sampleWindow sampleEnv sampleState rfl⟩
/-- A dispatch of any event other than a cursor move leaves the clear color
unchanged. -/
theorem handle_event_clear_color_of_not_cursor
    (window : Window) (renv : RenderEnv) (st : State) (cf : ControlFlow)
    (ev : Event) (st' : State) (cf' : ControlFlow) (tr : List RenderCmd)
    (hev : ev.is_cursor_moved = false)
    (h : handle_event window renv st cf ev = some (st', cf', tr)) :
    st'.clear_color = st.clear_color := by
  cases ev with
  | WindowEvent wid ev =>
    cases ev with
    | CloseRequested =>
      simp only [handle_event, Option.some.injEq, Prod.mk.injEq] at h
      obtain ⟨h1, -, -⟩ := h
      subst h1
      rfl
    | KeyboardInput did input syn =>
      cases hk : input.virtual_keycode with
      | none => simp [handle_event, hk] at h
      | some k =>
        cases k <;>
          (simp only [handle_event, hk, Option.some.injEq,
            Prod.mk.injEq] at h;
           obtain ⟨h1, -, -⟩ := h; subst h1; rfl)
    | CursorMoved position => simp [Event.is_cursor_moved] at hev
    | Resized sz =>
      simp only [handle_event, Option.some.injEq, Prod.mk.injEq] at h
      obtain ⟨h1, -, -⟩ := h
      subst h1
      rfl
    | Focused b =>
      simp only [handle_event, Option.some.injEq, Prod.mk.injEq] at h
      obtain ⟨h1, -, -⟩ := h
      subst h1
      rfl
  | RedrawRequested wid =>
    cases hr : st.render renv with
    | none => simp [handle_event, hr] at h
    | some out =>
      simp only [handle_event, hr, Option.some.injEq, Prod.mk.injEq] at h
      obtain ⟨h1, -, -⟩ := h
      obtain ⟨fr⟩ := renv
      cases fr with
      | none => simp [State.render] at hr
      | some frame =>
        simp only [State.render, Option.some.injEq] at hr
        subst hr
        subst h1
        rfl
  | MainEventsCleared =>
    simp only [handle_event, Option.some.injEq, Prod.mk.injEq] at h
    obtain ⟨h1, -, -⟩ := h
    subst h1
    rfl
  | NewEvents =>
    simp only [handle_event, Option.some.injEq, Prod.mk.injEq] at h
    obtain ⟨h1, -, -⟩ := h
    subst h1
    rfl
  | LoopDestroyed =>
    simp only [handle_event, Option.some.injEq, Prod.mk.injEq] at h
    obtain ⟨h1, -, -⟩ := h
    subst h1
    rfl

/-- Running the loop over inputs containing no cursor move leaves the clear
color unchanged. -/
theorem run_events_clear_color_of_no_cursor
    (inputs : List LoopInput) (st : State) (cf : ControlFlow)
    (s : State) (cfq : ControlFlow)
    (hnc : ∀ inp ∈ inputs, inp.event.is_cursor_moved = false)
    (hrun : run_events st cf inputs = some (s, cfq)) :
    s.clear_color = st.clear_color := by
  induction inputs generalizing st cf with
  | nil =>
    simp only [run_events, Option.some.injEq, Prod.mk.injEq] at hrun
    rw [hrun.1.symm]
  | cons inp rest ih =>
    simp only [run_events] at hrun
    cases hstep : handle_event inp.window inp.renv st cf inp.event with
    | none => rw [hstep] at hrun; cases hrun
    | some out =>
      obtain ⟨s1, cf1, tr1⟩ := out
      rw [hstep] at hrun
      have hcc := handle_event_clear_color_of_not_cursor inp.window inp.renv
        st cf inp.event s1 cf1 tr1 (hnc inp (by simp)) hstep
      have hrest := ih s1 cf1
        (fun i hi => hnc i (List.mem_cons_of_mem inp hi)) hrun
      rw [hrest, hcc]

/-- C10: before any cursor move, the clear color keeps its default value
with all four channels 0.0: starting from any initialized state, after any
sequence of dispatches containing no cursor move, the clear color is still
transparent black and a render clears the frame to (0, 0, 0, 0). -/
theorem clear_color_defaults_before_cursor
    (window : Window) (env : Env) (s0 : State) (cf0 : ControlFlow)
    (inputs : List LoopInput) (s : State) (cf : ControlFlow)
    (renv : RenderEnv) (st' : State) (tr : List RenderCmd)
    (hinit : State.new window env = some s0)
    (hnc : ∀ inp ∈ inputs, inp.event.is_cursor_moved = false)
    (hrun : run_events s0 cf0 inputs = some (s, cf))
    (hrender : s.render renv = some (st', tr)) :
    s.clear_color = { r := 0, g := 0, b := 0, a := 0 } ∧
    RenderCmd.beginRenderPass
        { load := LoadOp.Clear { r := 0, g := 0, b := 0, a := 0 },
          store := true } ∈ tr := by
  have h0 : s0.clear_color = defaultColor := by
    obtain ⟨a, d, c, v, f⟩ := env
    cases a <;> cases d <;> cases c <;> cases v <;> cases f <;>
      simp [State.new] at hinit
    subst hinit
    rfl
  have hcc := run_events_clear_color_of_no_cursor inputs s0 cf0 s cf hnc hrun
  have hs : s.clear_color = { r := 0, g := 0, b := 0, a := 0 } := by
    rw [hcc, h0]
    rfl
  refine ⟨hs, ?_⟩
  obtain ⟨fr⟩ := renv
  cases fr with
  | none => simp [State.render] at hrender
  | some frame =>
    simp only [State.render, Option.some.injEq, Prod.mk.injEq] at hrender
    obtain ⟨-, h2⟩ := hrender
    rw [h2.symm, hs]
    simp

/-- Witness for C10: one resize dispatch after initialization, then a
render. -/
theorem clear_color_defaults_before_cursor_witness :
    State.new sampleWindow sampleEnv = some sampleState ∧
    resizeSampleEvent.is_cursor_moved = false ∧
    run_events sampleState ControlFlow.Poll
        [{ window := sampleWindow, renv := sampleRenderEnv,
           event := resizeSampleEvent }] =
      some (resizedSampleState, ControlFlow.Poll) ∧
    (resizedSampleState.clear_color = { r := 0, g := 0, b := 0, a := 0 } ∧
     RenderCmd.beginRenderPass
         { load := LoadOp.Clear { r := 0, g := 0, b := 0, a := 0 },
           store := true } ∈
       [RenderCmd.acquireFrame 7,
        RenderCmd.createCommandEncoder (some renderEncoderLabel),
        RenderCmd.beginRenderPass
          { load := LoadOp.Clear resizedSampleState.clear_color,
            store := true },
        RenderCmd.setPipeline resizedSampleState.render_pipeline,
        RenderCmd.draw (0, 3) (0, 1),
        RenderCmd.submit 1]) :=
  ⟨rfl, rfl, rfl,
   clear_color_defaults_before_cursor sampleWindow sampleEnv sampleState
     ControlFlow.Poll
     [{ window := sampleWindow, renv := sampleRenderEnv,
        event := resizeSampleEvent }]
     resizedSampleState ControlFlow.Poll sampleRenderEnv resizedSampleState
     [RenderCmd.acquireFrame 7,
      RenderCmd.createCommandEncoder (some renderEncoderLabel),
      RenderCmd.beginRenderPass
        { load := LoadOp.Clear resizedSampleState.clear_color,
          store := true },
      RenderCmd.setPipeline resizedSampleState.render_pipeline,
      RenderCmd.draw (0, 3) (0, 1),
      RenderCmd.submit 1]
     rfl (by decide) rfl rfl⟩
